import Mathlib

/-!
# Verification of the newsbot content pipeline

Shallow embedding of the core pipeline of the `newsbot` repository:

* `TextSummarizer._extractive_summarize` (src/processor.py, lines 113-162),
* `NewsScraperManager.scrape_news` aggregation (src/scraper.py, lines 653-686),
* `NewsItem.to_dict` / `NewsItem.from_dict` (src/scraper.py, lines 56-93),
* `ContentProcessorManager.process_news_item` / `process_news_items`
  (src/processor.py, lines 436-492),
* `QuestionGenerator` (src/processor.py, lines 216-385).

External library calls (NLTK tokenizers, the VADER sentiment analyzer, spaCy
entity/noun extraction, Python's `random.choice`, `datetime` parsing and
formatting) are inputs of the embedding: the functions below receive the
already-tokenized text, the extracted entity/noun lists, the choice indices
and the timestamp parse/format functions as parameters, and model exactly the
logic the repository itself implements on top of them.
-/

namespace NewsBot

/-! ## Summarizer (`TextSummarizer._extractive_summarize`)

The summarizer is modelled at the token level: the input text is given as the
list of its sentences, each sentence being the list of its lowercased word
tokens (the output of `word_tokenize(sentence.lower())`); the word list of
the whole text (`word_tokenize(text.lower())`, line 132) is the
concatenation of the per-sentence token lists.  The result is the list of
selected sentences, in original order; the `len(sentences) <= min_sentences`
branch (line 127) returns all sentences.
-/

/-- The Python builtin `str.isalnum()`: non-empty and every character
alphanumeric (ASCII approximation via `Char.isAlphanum`). -/
def pyIsAlnum (w : String) : Bool :=
  w.length > 0 && w.toList.all Char.isAlphanum

/-- Line 133: `[word for word in words if word.isalnum() and word not in stop_words]`. -/
def contentWords (stop : List String) (toks : List String) : List String :=
  toks.filter (fun w => pyIsAlnum w && !stop.contains w)

/-- Line 142: `[word for word in sentence_words if word.isalnum()]`. -/
def alnumToks (toks : List String) : List String :=
  toks.filter pyIsAlnum

/-- Line 136: `FreqDist(words)` — the map from a word to its count. -/
def freq (stop : List String) (sents : List (List String)) (w : String) : Nat :=
  (contentWords stop sents.flatten).count w

/-- Line 148: `sum(freq_dist[word] for word in sentence_words if word in freq_dist)`.
`word in freq_dist` is membership among the keys, i.e. a strictly positive count. -/
def rawScore (f : String → Nat) (sw : List String) : Nat :=
  ((sw.filter (fun w => decide (0 < f w))).map f).sum

/-- Line 150: `sentence_scores[i] = score / len(sentence_words)`. -/
def sentenceScore (f : String → Nat) (sw : List String) : Rat :=
  (rawScore f sw : Rat) / (sw.length : Rat)

/-- Lines 139-150: the loop `for i, sentence in enumerate(sentences)` building
`sentence_scores`, with `i` starting at `k`.  Sentences whose alphanumeric
token count is below 3 are not given a score (lines 144-146). -/
def scoreList (f : String → Nat) : Nat → List (List String) → List (Nat × Rat)
  | _, [] => []
  | k, s :: rest =>
    if (alnumToks s).length < 3 then scoreList f (k + 1) rest
    else (k, sentenceScore f (alnumToks s)) :: scoreList f (k + 1) rest

/-- The `sentence_scores` dict, as its (insertion-ordered) list of
index/score pairs. -/
def sentenceScores (stop : List String) (sents : List (List String)) : List (Nat × Rat) :=
  scoreList (freq stop sents) 0 sents

/-- The sort relation used for
`sorted(sentence_scores, key=sentence_scores.get, reverse=True)` (line 154):
descending by score.  Python's sort is stable, and `List.insertionSort` with
this relation is the stable descending sort (inserted elements pass over
earlier elements of strictly larger-or-equal score), producing the same,
unique, stably-descending arrangement. -/
def scoreGE (a b : Nat × Rat) : Prop := b.2 ≤ a.2

instance : DecidableRel scoreGE := fun a b => inferInstanceAs (Decidable (b.2 ≤ a.2))

/-- Lines 113-162: `_extractive_summarize`, at the sentence level.
`maxS`/`minS` are `self.max_sentences`/`self.min_sentences`. -/
def extractiveSummarize (stop : List String) (maxS minS : Nat)
    (sents : List (List String)) : List (List String) :=
  if sents.length ≤ minS then sents
  else
    let scores := sentenceScores stop sents
    let num := min maxS (max minS (sents.length / 4))
    let top := ((List.insertionSort scoreGE scores).take num).map Prod.fst
    let topSorted := List.insertionSort (fun a b : Nat => a ≤ b) top
    topSorted.filterMap (fun i => sents.get? i)

/-! ## Canonical item (`NewsItem`, src/scraper.py lines 32-93)

The timestamp type is a parameter `δ`: the aggregator instantiates it with
`Int` (instants are totally ordered), the serialization theorems keep it
abstract together with the `datetime.fromisoformat` / `datetime.isoformat`
pair.  The `sentiment` attribute is added dynamically by the processor
(src/processor.py line 448); it is modelled as an `Option Rat` holding the
compound score, `none` while the attribute is absent.  Field defaults mirror
`__init__` (lines 45-54). -/

structure NewsItem (δ : Type) where
  title : String
  url : String
  source : String
  published_date : δ
  content : String := ""
  summary : String := ""
  image_url : String := ""
  processed : Bool := false
  question : String := ""
  generated_image_path : String := ""
  sentiment : Option Rat := none
deriving DecidableEq

/-! ## Aggregator (`NewsScraperManager.scrape_news`, src/scraper.py lines 653-686)

The per-scraper `try/except` loop (lines 667-673) makes each adapter
contribute its result list (an adapter that raised contributes nothing); the
claims quantify over the resulting lists, so the embedding takes the list of
per-adapter result lists as input and models lines 675-686: URL
deduplication with a seen-set, then a stable sort by `published_date`
descending.  Python `list.sort` is stable; `List.insertionSort` with
`itemGE` below is also stable (an element is inserted behind every
earlier element of greater-or-equal key), and a stably descending
arrangement of a given list is unique, so both sorts agree. -/

/-- The descending comparison used by
`unique_news_items.sort(key=lambda x: x.published_date, reverse=True)`. -/
def itemGE (a b : NewsItem Int) : Prop :=
  b.published_date ≤ a.published_date

instance : DecidableRel itemGE := fun a b =>
  Int.decLe b.published_date a.published_date

instance : IsTotal (NewsItem Int) itemGE :=
  ⟨fun a b => Int.le_total b.published_date a.published_date⟩

instance : IsTrans (NewsItem Int) itemGE :=
  ⟨fun _ _ _ h1 h2 => le_trans h2 h1⟩

/-- Lines 676-681: the loop keeping an item only if its `url` was not seen,
threading the `unique_urls` set (modelled as the list of seen urls). -/
def dedupAux : List String → List (NewsItem Int) → List (NewsItem Int)
  | _, [] => []
  | seen, x :: xs =>
    if seen.contains x.url then dedupAux seen xs
    else x :: dedupAux (x.url :: seen) xs

/-- Lines 653-686: concatenate all adapter results, deduplicate by `url`,
sort by `published_date` descending (stable). -/
def scrape_news (results : List (List (NewsItem Int))) : List (NewsItem Int) :=
  List.insertionSort itemGE (dedupAux [] results.flatten)

/-! ## Serialization (`NewsItem.to_dict` / `NewsItem.from_dict`, src/scraper.py lines 56-93)

A serialized record is a flat dict.  `from_dict` reads `title`, `url` and
`source` with mandatory indexing and everything else with `.get` defaults,
so those three fields are plain and the rest are `Option`s.  The
`datetime.isoformat` / `datetime.fromisoformat` pair is abstracted as
`fmt : δ → String` and `parse : String → Option δ` (`none` models the
`ValueError/TypeError` branch, which falls back to `datetime.now()`,
modelled by `now`). -/

structure NewsDict where
  title : String
  url : String
  source : String
  published_date : Option String
  content : Option String
  summary : Option String
  image_url : Option String
  processed : Option Bool
  question : Option String
  generated_image_path : Option String
deriving DecidableEq

/-- Lines 56-69: `to_dict` emits every field, formatting the timestamp. -/
def to_dict {δ : Type} (fmt : δ → String) (it : NewsItem δ) : NewsDict :=
  { title := it.title
    url := it.url
    source := it.source
    published_date := some (fmt it.published_date)
    content := some it.content
    summary := some it.summary
    image_url := some it.image_url
    processed := some it.processed
    question := some it.question
    generated_image_path := some it.generated_image_path }

/-- Lines 71-93: `from_dict` builds the item with constructor defaults, then
parses the timestamp if the key is present (falling back to `now` when
parsing fails) and fills `processed`, `question`, `generated_image_path`
from their `.get` defaults. -/
def from_dict {δ : Type} (parse : String → Option δ) (now : δ) (d : NewsDict) : NewsItem δ :=
  let item : NewsItem δ :=
    { title := d.title
      url := d.url
      source := d.source
      published_date := now
      content := d.content.getD ""
      summary := d.summary.getD ""
      image_url := d.image_url.getD "" }
  let item :=
    match d.published_date with
    | some s => { item with published_date := (parse s).getD now }
    | none => item
  { item with
    processed := d.processed.getD false
    question := d.question.getD ""
    generated_image_path := d.generated_image_path.getD "" }

/-! ## Content processor (`ContentProcessorManager`, src/processor.py lines 411-492)

`process_news_item` mutates the item it is given (sentiment, summary,
question, processed) and returns it, or returns `None` when the sentiment
gate drops the item.  The embedding returns the pair of the mutated item and
the `Option` result.  The VADER compound score is a parameter
`sia : String → Rat`; `threshold` is `config.get("sentiment_threshold", -0.5)`;
`summarizer` and `qgen` are the summarizer and question generator passes on
raw text. -/

/-- Line 446: `text = news_item.content or news_item.summary or news_item.title`. -/
def bestText {δ : Type} (it : NewsItem δ) : String :=
  if it.content ≠ "" then it.content
  else if it.summary ≠ "" then it.summary
  else it.title

/-- Lines 436-469: sentiment gate, summary fill-in, question generation,
`processed` flag. -/
def process_news_item {δ : Type} (sia : String → Rat) (threshold : Rat)
    (summarizer qgen : String → String) (it : NewsItem δ) :
    NewsItem δ × Option (NewsItem δ) :=
  let score := sia (bestText it)
  let it1 := { it with sentiment := some score }
  if score < threshold then (it1, none)
  else
    let it2 :=
      if it1.summary = "" ∧ it1.content ≠ "" then
        { it1 with summary := summarizer it1.content }
      else if it1.summary = "" then { it1 with summary := it1.title }
      else it1
    let tq := if it2.summary ≠ "" then it2.summary else it2.content
    let tq := if tq = "" then it2.title else tq
    let it3 := { it2 with question := qgen tq, processed := true }
    (it3, some it3)

/-- Lines 481-492: the batch loop.  `step` is the per-item call inside the
`try`: `Except.error` models an escaping exception, `Except.ok none` a
gate drop, `Except.ok (some y)` a processed item.  On an exception the
original item is appended (line 490); the loop continues either way. -/
def process_loop {δ : Type}
    (step : NewsItem δ → Except String (Option (NewsItem δ))) :
    List (NewsItem δ) → List (NewsItem δ) → List (NewsItem δ)
  | acc, [] => acc
  | acc, x :: xs =>
    match step x with
    | .error _ => process_loop step (acc ++ [x]) xs
    | .ok none => process_loop step acc xs
    | .ok (some y) => process_loop step (acc ++ [y]) xs

/-- Lines 471-492: `process_news_items`. -/
def process_news_items {δ : Type}
    (step : NewsItem δ → Except String (Option (NewsItem δ)))
    (items : List (NewsItem δ)) : List (NewsItem δ) :=
  process_loop step [] items

/-! ## Question generator (`QuestionGenerator`, src/processor.py lines 216-385)

spaCy entity extraction and part-of-speech tagging are inputs: `ents` is
`doc.ents` (text and label of each entity), `nouns` the `NOUN`-tagged token
texts.  Every `random.choice(l)` (which picks an arbitrary element of a
non-empty `l`) is modelled as `pyChoice d l k = l[k % len l]` quantified
over `k`, so every reachable pick is covered; the default `d` is only
returned for `l = []`, where CPython would raise `IndexError`. -/

structure SpacyEntity where
  text : String
  label : String
deriving DecidableEq

/-- `random.choice`, with the choice index `k` made explicit. -/
def pyChoice {α : Type} (d : α) (l : List α) (k : Nat) : α :=
  l.getD (k % l.length) d

/-- Lines 282-286. -/
def personTemplates (e : String) : List String :=
  ["What role did " ++ e ++ " play in this situation?",
   "Why is " ++ e ++ " significant in this context?",
   "How might " ++ e ++ "\x27s actions impact future developments?"]

/-- Lines 288-292. -/
def orgTemplates (e : String) : List String :=
  ["What are the implications of " ++ e ++ "\x27s involvement?",
   "How might " ++ e ++ "\x27s position evolve in the future?",
   "Why is " ++ e ++ "\x27s role important in this context?"]

/-- Lines 294-298. -/
def gpeTemplates (e : String) : List String :=
  ["How might these developments affect " ++ e ++ "?",
   "What are the broader implications for " ++ e ++ "?",
   "Why is " ++ e ++ " significant in this situation?"]

/-- Lines 300-304. -/
def eventTemplates (e : String) : List String :=
  ["What might be the long-term consequences of " ++ e ++ "?",
   "How could " ++ e ++ " shape future developments?",
   "Why is " ++ e ++ " considered significant?"]

/-- Lines 306-310. -/
def otherEntityTemplates (e : String) : List String :=
  ["What makes " ++ e ++ " significant in this context?",
   "How might " ++ e ++ " influence future developments?",
   "Why is " ++ e ++ " important to consider?"]

/-- Line 271. -/
def interestingTypes : List String :=
  ["PERSON", "ORG", "GPE", "EVENT", "PRODUCT", "WORK_OF_ART"]

/-- Lines 253-312: `_generate_entity_question`.  Returns `""` when the text
has no entities. -/
def generate_entity_question (ents : List SpacyEntity) (kEnt kTpl : Nat) : String :=
  if ents.isEmpty then ""
  else
    let interesting := ents.filter (fun e => interestingTypes.contains e.label)
    let pool := if interesting.isEmpty then ents else interesting
    let ent := pyChoice ⟨"", ""⟩ pool kEnt
    let templates :=
      if ent.label = "PERSON" then personTemplates ent.text
      else if ent.label = "ORG" then orgTemplates ent.text
      else if ent.label = "GPE" then gpeTemplates ent.text
      else if ent.label = "EVENT" then eventTemplates ent.text
      else otherEntityTemplates ent.text
    pyChoice "" templates kTpl

/-- Lines 339-343. -/
def whatTemplates (n : String) : List String :=
  ["What are the broader implications of this " ++ n ++ "?",
   "What might be the next developments in this " ++ n ++ "?",
   "What do you think about this " ++ n ++ "?"]

/-- Lines 345-349. -/
def whyTemplates (n : String) : List String :=
  ["Why is this " ++ n ++ " significant?",
   "Why might this " ++ n ++ " matter in the long run?",
   "Why should we pay attention to this " ++ n ++ "?"]

/-- Lines 351-355. -/
def howTemplates (n : String) : List String :=
  ["How might this " ++ n ++ " affect future developments?",
   "How could this " ++ n ++ " change our understanding?",
   "How do you see this " ++ n ++ " evolving?"]

/-- Lines 357-361. -/
def otherTypeTemplates (n : String) : List String :=
  ["Do you think this " ++ n ++ " will have lasting impact?",
   "Is this " ++ n ++ " as important as it seems?",
   "Could this " ++ n ++ " lead to significant changes?"]

/-- Lines 372-383. -/
def genericQuestions : List String :=
  ["What do you think about this development?",
   "How might this news impact the broader context?",
   "Why is this news significant?",
   "What could be the long-term implications?",
   "How might this situation evolve in the future?",
   "Do you see this as a positive or negative development?",
   "What other factors might be influencing this situation?",
   "How does this compare to similar situations in the past?",
   "What questions does this raise for you?",
   "What might be missing from this story?"]

/-- Lines 365-385: `_generate_generic_question`. -/
def generate_generic_question (k : Nat) : String :=
  pyChoice "" genericQuestions k

/-- Lines 314-363: `_generate_template_question`; falls back to the generic
bank when the text has no nouns. -/
def generate_template_question (nouns : List String) (question_types : List String)
    (kNoun kType kTpl kGen : Nat) : String :=
  if nouns.isEmpty then generate_generic_question kGen
  else
    let n := pyChoice "" nouns kNoun
    let qt := pyChoice "" question_types kType
    let templates :=
      if qt = "what" then whatTemplates n
      else if qt = "why" then whyTemplates n
      else if qt = "how" then howTemplates n
      else otherTypeTemplates n
    pyChoice "" templates kTpl

/-- Lines 232-251: `QuestionGenerator.process`. -/
def qg_process (ents : List SpacyEntity) (nouns : List String)
    (question_types : List String) (kEnt kTplE kNoun kType kTpl kGen : Nat)
    (text : String) : String :=
  if text = "" then ""
  else
    let q := generate_entity_question ents kEnt kTplE
    if q = "" then generate_template_question nouns question_types kNoun kType kTpl kGen
    else q

/-- The property claimed of synthesized questions: the last character is a
question mark. -/
def endsWithQuestionMark (s : String) : Bool :=
  s.data.getLast? == some '?'

/-! ## Concrete sample data used by witnesses and counterexamples -/

/-- Sample aggregator item: first report of the story at url `u`. -/
def aggA : NewsItem Int where
  title := "A"
  url := "u"
  source := "google"
  published_date := 5

/-- Sample aggregator item: second report of the same url `u`. -/
def aggB : NewsItem Int where
  title := "B"
  url := "u"
  source := "rss"
  published_date := 7

/-- Sample aggregator item with a distinct url and the newest timestamp. -/
def aggC : NewsItem Int where
  title := "C"
  url := "c"
  source := "rss"
  published_date := 9

/-- Sample aggregator item sharing the timestamp of `aggA`. -/
def aggD : NewsItem Int where
  title := "D"
  url := "d"
  source := "google"
  published_date := 5

/-- Sample pipeline item with body text only. -/
def procItem : NewsItem Unit where
  title := "T"
  url := "pu"
  source := "s"
  published_date := ()
  content := "body"

/-- Sample pipeline item that processes without incident. -/
def procOk : NewsItem Unit where
  title := "OK"
  url := "ok"
  source := "s"
  published_date := ()
  content := "fine"

/-- Concrete timestamp parser used by the round-trip witness: recognizes the
one serialized instant of `dictD`. -/
def parseFix (s : String) : Option Nat :=
  if s = "5" then some 5 else none

/-- Concrete timestamp formatter matching `parseFix`. -/
def fmtFix (n : Nat) : String :=
  if n = 5 then "5" else ""

/-- Sample serialized record (all keys present, as `to_dict` emits them). -/
def dictD : NewsDict where
  title := "T"
  url := "du"
  source := "s"
  published_date := some "5"
  content := some "body"
  summary := some "sum"
  image_url := some "img"
  processed := some true
  question := some "q?"
  generated_image_path := some "path"

end NewsBot

namespace NewsBot

/-! ## Summarizer lemmas -/

/-- Characterization of membership in the score list built by the
`enumerate` loop: every scored index points at a sentence of the input with
at least 3 alphanumeric tokens, and carries that sentence's score. -/
theorem scoreList_mem {f : String → Nat} :
    ∀ {sents : List (List String)} {k i : Nat} {sc : Rat},
      (i, sc) ∈ scoreList f k sents →
      ∃ j s, i = k + j ∧ sents.get? j = some s ∧ 3 ≤ (alnumToks s).length ∧
        sc = sentenceScore f (alnumToks s)
  | [], _, _, _, h => absurd h (List.not_mem_nil _)
  | s :: rest, k, i, sc, h => by
    rw [scoreList] at h
    by_cases hlen : (alnumToks s).length < 3
    · rw [if_pos hlen] at h
      obtain ⟨j, s', hj, hget, h3, hsc⟩ := scoreList_mem h
      exact ⟨j + 1, s', by omega, by simpa using hget, h3, hsc⟩
    · rw [if_neg hlen] at h
      rcases List.mem_cons.mp h with heq | htail
      · have hi : i = k := congrArg Prod.fst heq
        have hs : sc = sentenceScore f (alnumToks s) := congrArg Prod.snd heq
        exact ⟨0, s, by omega, rfl, by omega, hs⟩
      · obtain ⟨j, s', hj, hget, h3, hsc⟩ := scoreList_mem htail
        exact ⟨j + 1, s', by omega, by simpa using hget, h3, hsc⟩

/-- If every sentence is below the 3-alphanumeric-token threshold, the score
dict stays empty. -/
theorem scoreList_eq_nil {f : String → Nat} :
    ∀ {sents : List (List String)} {k : Nat},
      (∀ s ∈ sents, (alnumToks s).length < 3) → scoreList f k sents = []
  | [], _, _ => rfl
  | s :: rest, k, h => by
    rw [scoreList, if_pos (h s (List.mem_cons_self s rest))]
    exact scoreList_eq_nil fun s hs => h s (List.mem_cons_of_mem _ hs)

/-- Unfolding of `extractiveSummarize` in the scoring branch. -/
theorem extractiveSummarize_of_lt {stop : List String} {maxS minS : Nat}
    {sents : List (List String)} (h : minS < sents.length) :
    extractiveSummarize stop maxS minS sents =
      (List.insertionSort (fun a b : Nat => a ≤ b)
        (((List.insertionSort scoreGE (sentenceScores stop sents)).take
            (min maxS (max minS (sents.length / 4)))).map Prod.fst)).filterMap
        (fun i => sents.get? i) := by
  simp only [extractiveSummarize]
  rw [if_neg (by omega)]

/-- Every sentence of the produced summary was scored. -/
theorem mem_extractiveSummarize {stop : List String} {maxS minS : Nat}
    {sents : List (List String)} {s : List String}
    (h : minS < sents.length)
    (hs : s ∈ extractiveSummarize stop maxS minS sents) :
    ∃ i sc, (i, sc) ∈ sentenceScores stop sents ∧ sents.get? i = some s := by
  rw [extractiveSummarize_of_lt h] at hs
  obtain ⟨i, hi, hget⟩ := List.mem_filterMap.mp hs
  rw [List.mem_insertionSort] at hi
  obtain ⟨⟨i', sc⟩, hp, rfl⟩ := List.mem_map.mp hi
  have hmem := List.take_subset _ _ hp
  rw [List.mem_insertionSort] at hmem
  exact ⟨i', sc, hmem, hget⟩

/-- Line 148: the guarded sum over `sentence_words` equals the plain sum of
the global frequencies of the content words of the sentence, because a
stop-word has zero global frequency and any alphanumeric non-stop word of a
sentence of the text occurs in the frequency table. -/
theorem rawScore_eq_contentWords {stop : List String} {sents : List (List String)}
    {s : List String} (hs : s ∈ sents) :
    rawScore (freq stop sents) (alnumToks s)
      = ((contentWords stop s).map (freq stop sents)).sum := by
  have hfilter : (alnumToks s).filter (fun w => decide (0 < freq stop sents w))
      = contentWords stop s := by
    rw [alnumToks, List.filter_filter, contentWords]
    refine List.filter_congr ?_
    intro w hw
    by_cases ha : pyIsAlnum w
    · simp only [ha, Bool.and_true, Bool.true_and]
      by_cases hstop : stop.contains w
      · have hstopmem : w ∈ stop := by simpa using hstop
        have hzero : freq stop sents w = 0 := by
          rw [freq, List.count_eq_zero]
          intro hmem
          have hprop := (List.mem_filter.mp hmem).2
          simp at hprop
          exact hprop.2 hstopmem
        rw [hzero, hstop]
        decide
      · have hnmem : w ∉ stop := by simpa using hstop
        have hmem : w ∈ contentWords stop sents.flatten := by
          rw [contentWords, List.mem_filter]
          exact ⟨List.mem_flatten.mpr ⟨s, hs, hw⟩, by simp [ha, hnmem]⟩
        have hpos : 0 < freq stop sents w := by
          rw [freq]
          exact List.count_pos_iff.mpr hmem
        simp [hpos, hnmem]
    · simp [ha]
  rw [rawScore, hfilter]

/-- The stored score of a sentence of the text is the sum of its content
word frequencies divided by its alphanumeric token count. -/
theorem sentenceScore_eq_mean {stop : List String} {sents : List (List String)}
    {s : List String} (hs : s ∈ sents) :
    sentenceScore (freq stop sents) (alnumToks s)
      = (((contentWords stop s).map fun w => (freq stop sents w : Rat)).sum)
        / ((alnumToks s).length : Rat) := by
  rw [sentenceScore, rawScore_eq_contentWords hs, Nat.cast_list_sum, List.map_map]
  rfl

/-- C1, counterexample: with stop-words `it`, `is`, `a`, the sentence
`it is a cat` has a single content word, yet it is scored (its four
alphanumeric tokens pass the threshold of line 145) and selected; its stored
score is `1/4` (divided by the alphanumeric token count), not the
content-word mean `1` the claim prescribes. -/
theorem extractive_short_content_sentence_selected :
    extractiveSummarize ["it", "is", "a"] 3 1 [["it", "is", "a", "cat"], ["zz"]]
        = [["it", "is", "a", "cat"]]
    ∧ (contentWords ["it", "is", "a"] ["it", "is", "a", "cat"]).length < 3
    ∧ sentenceScores ["it", "is", "a"] [["it", "is", "a", "cat"], ["zz"]]
        = [(0, (1 : Rat) / 4)]
    ∧ (((contentWords ["it", "is", "a"] ["it", "is", "a", "cat"]).map
          fun w => (freq ["it", "is", "a"] [["it", "is", "a", "cat"], ["zz"]] w : Rat)).sum)
        / ((contentWords ["it", "is", "a"] ["it", "is", "a", "cat"]).length : Rat) = 1
    ∧ (1 : Rat) / 4 ≠ 1 := by
  refine ⟨by decide, by decide, ?_, ?_, by norm_num⟩
  · have h1 : sentenceScores ["it", "is", "a"] [["it", "is", "a", "cat"], ["zz"]]
        = [(0, sentenceScore
            (freq ["it", "is", "a"] [["it", "is", "a", "cat"], ["zz"]])
            (alnumToks ["it", "is", "a", "cat"]))] := rfl
    have hr : rawScore (freq ["it", "is", "a"] [["it", "is", "a", "cat"], ["zz"]])
        (alnumToks ["it", "is", "a", "cat"]) = 1 := by decide
    have hl : (alnumToks ["it", "is", "a", "cat"]).length = 4 := by decide
    rw [h1, sentenceScore, hr, hl]
    norm_num
  · have hc : contentWords ["it", "is", "a"] ["it", "is", "a", "cat"] = ["cat"] := by decide
    have hf : freq ["it", "is", "a"] [["it", "is", "a", "cat"], ["zz"]] "cat" = 1 := by
      decide
    rw [hc]
    simp [hf]

/-- C1 (amended): in the scoring branch, every sentence with fewer than 3
alphanumeric tokens (stop-words included) is skipped and never selected, and
each scored sentence's score is the sum of its content words' global
frequencies divided by its alphanumeric token count. -/
theorem extractive_skip_and_score_alnum
    (stop : List String) (maxS minS : Nat) (sents : List (List String))
    (h : minS < sents.length) :
    (∀ s ∈ extractiveSummarize stop maxS minS sents, 3 ≤ (alnumToks s).length)
    ∧ (∀ i sc, (i, sc) ∈ sentenceScores stop sents →
        ∃ s, sents.get? i = some s ∧ 3 ≤ (alnumToks s).length ∧
          sc = (((contentWords stop s).map fun w => (freq stop sents w : Rat)).sum)
            / ((alnumToks s).length : Rat)) := by
  constructor
  · intro s hs
    obtain ⟨i, sc, hmem, hget⟩ := mem_extractiveSummarize h hs
    rw [sentenceScores] at hmem
    obtain ⟨j, s', hj, hget', h3, _⟩ := scoreList_mem hmem
    have hij : i = j := by omega
    rw [hij, hget'] at hget
    injection hget with hget
    rw [← hget]
    exact h3
  · intro i sc hmem
    rw [sentenceScores] at hmem
    obtain ⟨j, s, hj, hget, h3, hsc⟩ := scoreList_mem hmem
    have hij : i = j := by omega
    refine ⟨s, by rw [hij]; exact hget, h3, ?_⟩
    rw [hsc]
    exact sentenceScore_eq_mean (List.get?_mem hget)

/-- Witness for `extractive_skip_and_score_alnum` at a concrete input. -/
theorem extractive_skip_and_score_alnum_witness :
    1 < ([["aa", "bb", "cc"], ["dd"]] : List (List String)).length
    ∧ ((∀ s ∈ extractiveSummarize [] 3 1 [["aa", "bb", "cc"], ["dd"]],
          3 ≤ (alnumToks s).length)
      ∧ (∀ i sc, (i, sc) ∈ sentenceScores [] [["aa", "bb", "cc"], ["dd"]] →
          ∃ s, ([["aa", "bb", "cc"], ["dd"]] : List (List String)).get? i = some s
            ∧ 3 ≤ (alnumToks s).length
            ∧ sc = (((contentWords [] s).map
                fun w => (freq [] [["aa", "bb", "cc"], ["dd"]] w : Rat)).sum)
              / ((alnumToks s).length : Rat))) :=
  ⟨by decide, extractive_skip_and_score_alnum [] 3 1 [["aa", "bb", "cc"], ["dd"]] (by decide)⟩

/-- C2, counterexample: two one-token sentences, `min_sentences = 1`.  No
sentence reaches the threshold, the input is longer than `min_sentences`,
and the summarizer returns the empty summary, not the first
`min_sentences` sentences. -/
theorem extractive_no_fallback_counterexample :
    (∀ s ∈ ([["hi"], ["yo"]] : List (List String)), (contentWords [] s).length < 3)
    ∧ 1 < ([["hi"], ["yo"]] : List (List String)).length
    ∧ extractiveSummarize [] 3 1 [["hi"], ["yo"]] = []
    ∧ ([["hi"], ["yo"]] : List (List String)).take 1 = [["hi"]] := by
  decide

/-- C2 (amended): if the text has more than `min_sentences` sentences and no
sentence reaches the 3-alphanumeric-token threshold, the summarizer returns
the empty summary — there is no fallback to the first `min_sentences`
sentences. -/
theorem extractive_empty_when_all_below_threshold
    (stop : List String) (maxS minS : Nat) (sents : List (List String))
    (h1 : minS < sents.length)
    (h2 : ∀ s ∈ sents, (alnumToks s).length < 3) :
    extractiveSummarize stop maxS minS sents = [] := by
  rw [extractiveSummarize_of_lt h1, sentenceScores, scoreList_eq_nil h2]
  simp

/-- Witness for `extractive_empty_when_all_below_threshold`. -/
theorem extractive_empty_when_all_below_threshold_witness :
    1 < ([["hi"], ["yo"]] : List (List String)).length
    ∧ (∀ s ∈ ([["hi"], ["yo"]] : List (List String)), (alnumToks s).length < 3)
    ∧ extractiveSummarize [] 3 1 [["hi"], ["yo"]] = [] :=
  ⟨by decide, by decide,
    extractive_empty_when_all_below_threshold [] 3 1 [["hi"], ["yo"]] (by decide) (by decide)⟩

/-- C3: the summary never has more sentences than `max_sentences` (for any
configuration with `min_sentences ≤ max_sentences`, which includes the
defaults 1 and 3), an input of at most `min_sentences` sentences is returned
unchanged, and in the scoring branch the selected count is bounded by
`min(max_sentences, max(min_sentences, total_sentences / 4))`. -/
theorem extractive_summary_bound
    (stop : List String) (maxS minS : Nat) (sents : List (List String))
    (h : minS ≤ maxS) :
    (extractiveSummarize stop maxS minS sents).length ≤ maxS
    ∧ (sents.length ≤ minS → extractiveSummarize stop maxS minS sents = sents)
    ∧ (minS < sents.length →
        (extractiveSummarize stop maxS minS sents).length
          ≤ min maxS (max minS (sents.length / 4))) := by
  have hB : sents.length ≤ minS → extractiveSummarize stop maxS minS sents = sents := by
    intro hle
    simp only [extractiveSummarize]
    rw [if_pos hle]
  have hC : minS < sents.length →
      (extractiveSummarize stop maxS minS sents).length
        ≤ min maxS (max minS (sents.length / 4)) := by
    intro hlt
    rw [extractiveSummarize_of_lt hlt]
    refine le_trans (List.length_filterMap_le _ _) ?_
    rw [List.length_insertionSort, List.length_map, List.length_take]
    exact min_le_left _ _
  refine ⟨?_, hB, hC⟩
  by_cases hle : sents.length ≤ minS
  · rw [hB hle]
    omega
  · exact le_trans (hC (by omega)) (min_le_left _ _)

/-! ## Aggregator lemmas -/

/-- Nothing kept by the dedup loop carries an already-seen url. -/
theorem dedupAux_not_seen :
    ∀ {seen : List String} {l : List (NewsItem Int)} {x : NewsItem Int},
      x ∈ dedupAux seen l → x.url ∉ seen
  | _, [], x, h => absurd h (List.not_mem_nil x)
  | seen, y :: ys, x, h => by
    rw [dedupAux] at h
    by_cases hc : seen.contains y.url
    · rw [if_pos hc] at h
      exact dedupAux_not_seen h
    · rw [if_neg hc] at h
      rcases List.mem_cons.mp h with rfl | htail
      · simpa using hc
      · intro hmem
        exact dedupAux_not_seen htail (List.mem_cons_of_mem _ hmem)

/-- The dedup loop keeps at most one item per url. -/
theorem dedupAux_pairwise :
    ∀ (seen : List String) (l : List (NewsItem Int)),
      (dedupAux seen l).Pairwise (fun a b => a.url ≠ b.url)
  | _, [] => List.Pairwise.nil
  | seen, y :: ys => by
    rw [dedupAux]
    by_cases hc : seen.contains y.url
    · rw [if_pos hc]
      exact dedupAux_pairwise seen ys
    · rw [if_neg hc]
      refine List.Pairwise.cons ?_ (dedupAux_pairwise (y.url :: seen) ys)
      intro z hz
      have := dedupAux_not_seen hz
      intro hurl
      exact this (hurl ▸ List.mem_cons_self _ _)

/-- The dedup loop keeps at least one item per unseen url of the input. -/
theorem dedupAux_covers :
    ∀ {seen : List String} {l : List (NewsItem Int)} {u : String},
      (∃ x ∈ l, x.url = u) → u ∉ seen → ∃ y ∈ dedupAux seen l, y.url = u
  | _, [], _, ⟨_, hx, _⟩, _ => absurd hx (List.not_mem_nil _)
  | seen, y :: ys, u, ⟨x, hx, hxu⟩, hus => by
    rw [dedupAux]
    by_cases hc : seen.contains y.url
    · rw [if_pos hc]
      rcases List.mem_cons.mp hx with rfl | htail
      · exact absurd (hxu ▸ (by simpa using hc)) hus
      · exact dedupAux_covers ⟨x, htail, hxu⟩ hus
    · rw [if_neg hc]
      rcases List.mem_cons.mp hx with rfl | htail
      · exact ⟨x, List.mem_cons_self _ _, hxu⟩
      · by_cases hyu : u = y.url
        · exact ⟨y, List.mem_cons_self _ _, hyu.symm⟩
        · have hus' : u ∉ y.url :: seen := by
            intro hmem
            rcases List.mem_cons.mp hmem with h | h
            · exact hyu h
            · exact hus h
          obtain ⟨z, hz, hzu⟩ := dedupAux_covers ⟨x, htail, hxu⟩ hus'
          exact ⟨z, List.mem_cons_of_mem _ hz, hzu⟩

/-- Every kept item is the first item of the input with its url. -/
theorem dedupAux_first :
    ∀ {seen : List String} {l : List (NewsItem Int)} {x : NewsItem Int},
      x ∈ dedupAux seen l → l.find? (fun y => y.url == x.url) = some x
  | _, [], x, h => absurd h (List.not_mem_nil x)
  | seen, y :: ys, x, h => by
    rw [dedupAux] at h
    by_cases hc : seen.contains y.url
    · rw [if_pos hc] at h
      have hne : (y.url == x.url) = false := by
        simp only [beq_eq_false_iff_ne]
        intro hurl
        exact dedupAux_not_seen h (hurl ▸ (by simpa using hc))
      rw [List.find?_cons_of_neg _ (by simp [hne]), dedupAux_first h]
    · rw [if_neg hc] at h
      rcases List.mem_cons.mp h with rfl | htail
      · exact List.find?_cons_of_pos _ (by simp)
      · have hne : (y.url == x.url) = false := by
          simp only [beq_eq_false_iff_ne]
          intro hurl
          exact dedupAux_not_seen htail (hurl ▸ List.mem_cons_self _ _)
        rw [List.find?_cons_of_neg _ (by simp [hne]), dedupAux_first htail]

/-- The dedup loop preserves input order: its output is a sublist. -/
theorem dedupAux_sublist :
    ∀ (seen : List String) (l : List (NewsItem Int)), (dedupAux seen l).Sublist l
  | _, [] => List.Sublist.refl []
  | seen, x :: xs => by
    rw [dedupAux]
    by_cases hc : seen.contains x.url
    · rw [if_pos hc]
      exact (dedupAux_sublist seen xs).cons x
    · rw [if_neg hc]
      exact (dedupAux_sublist (x.url :: seen) xs).cons₂ x

/-- Stability of `orderedInsert` for `itemGE`, phrased through the filter at
one timestamp: the inserted element lands in front of the items of its own
timestamp class. -/
theorem filter_pub_orderedInsert (t : Int) (x : NewsItem Int) :
    ∀ l : List (NewsItem Int),
      (List.orderedInsert itemGE x l).filter (fun y => y.published_date == t)
        = if x.published_date == t
          then x :: l.filter (fun y => y.published_date == t)
          else l.filter (fun y => y.published_date == t)
  | [] => by simp [List.orderedInsert, List.filter_cons]
  | y :: l => by
    rw [List.orderedInsert]
    by_cases hr : itemGE x y
    · rw [if_pos hr]
      simp [List.filter_cons]
    · rw [if_neg hr]
      simp only [List.filter_cons, filter_pub_orderedInsert t x l]
      by_cases hx : x.published_date = t
      · have hyb : (y.published_date == t) = false := by
          simp only [beq_eq_false_iff_ne]
          intro hyt
          exact hr (le_of_eq (hyt.trans hx.symm))
        simp [hx, hyb]
      · have hxb : (x.published_date == t) = false := by simpa using hx
        simp [hxb]

/-- Stability of the sort of line 684: the subsequence of any one timestamp
class is untouched. -/
theorem filter_pub_insertionSort (t : Int) :
    ∀ l : List (NewsItem Int),
      (List.insertionSort itemGE l).filter (fun y => y.published_date == t)
        = l.filter (fun y => y.published_date == t)
  | [] => rfl
  | x :: l => by
    rw [List.insertionSort, filter_pub_orderedInsert t x (List.insertionSort itemGE l),
      filter_pub_insertionSort t l, List.filter_cons]

/-- C4: aggregation keeps exactly one item per distinct url — the kept items
have pairwise distinct urls, every url occurring in the concatenated adapter
results is represented, and each kept item is the first item with its url in
concatenated adapter-registration order. -/
theorem scrape_news_dedup_first_seen (results : List (List (NewsItem Int))) :
    (scrape_news results).Pairwise (fun a b => a.url ≠ b.url)
    ∧ (∀ u, (∃ x ∈ results.flatten, x.url = u) →
        ∃ y ∈ scrape_news results, y.url = u)
    ∧ (∀ x ∈ scrape_news results,
        results.flatten.find? (fun y => y.url == x.url) = some x) := by
  refine ⟨?_, ?_, ?_⟩
  · have hperm := List.perm_insertionSort itemGE (dedupAux [] results.flatten)
    exact (List.Perm.pairwise_iff (fun h => Ne.symm h) hperm).mpr
      (dedupAux_pairwise [] results.flatten)
  · intro u hu
    obtain ⟨y, hy, hyu⟩ := dedupAux_covers hu (List.not_mem_nil u)
    refine ⟨y, ?_, hyu⟩
    rw [scrape_news, List.mem_insertionSort]
    exact hy
  · intro x hx
    rw [scrape_news, List.mem_insertionSort] at hx
    exact dedupAux_first hx

/-- Witness for `scrape_news_dedup_first_seen`: two adapters reporting the
same url; the first-seen item is the one kept. -/
theorem scrape_news_dedup_first_seen_witness :
    (scrape_news [[aggA, aggD], [aggB, aggC]]).Pairwise (fun a b => a.url ≠ b.url)
    ∧ ([[aggA, aggD], [aggB, aggC]] : List (List (NewsItem Int))).flatten.find?
        (fun y => y.url == aggA.url) = some aggA :=
  ⟨(scrape_news_dedup_first_seen _).1,
    (scrape_news_dedup_first_seen [[aggA, aggD], [aggB, aggC]]).2.2 aggA (by decide)⟩

/-- C5: aggregation output is non-increasing in `published_date`, and the
items of any one timestamp keep their relative order from the concatenated
input (the filter at that timestamp is a sublist of the input filter). -/
theorem scrape_news_sorted_stable (results : List (List (NewsItem Int))) :
    List.Sorted itemGE (scrape_news results)
    ∧ ∀ t : Int,
        ((scrape_news results).filter fun y => y.published_date == t).Sublist
          (results.flatten.filter fun y => y.published_date == t) := by
  constructor
  · exact List.sorted_insertionSort itemGE _
  · intro t
    rw [scrape_news, filter_pub_insertionSort]
    exact (dedupAux_sublist _ _).filter _

/-- Witness for `scrape_news_sorted_stable`. -/
theorem scrape_news_sorted_stable_witness :
    List.Sorted itemGE (scrape_news [[aggA, aggD], [aggC]])
    ∧ ((scrape_news [[aggA, aggD], [aggC]]).filter
        fun y => y.published_date == (5 : Int)).Sublist
        (([[aggA, aggD], [aggC]] : List (List (NewsItem Int))).flatten.filter
          fun y => y.published_date == (5 : Int)) :=
  ⟨(scrape_news_sorted_stable _).1, (scrape_news_sorted_stable [[aggA, aggD], [aggC]]).2 5⟩

/-- Witness for `extractive_summary_bound`. -/
theorem extractive_summary_bound_witness :
    1 ≤ 3
    ∧ ((extractiveSummarize [] 3 1 [["aa", "bb", "cc"], ["dd"]]).length ≤ 3
      ∧ (([["aa", "bb", "cc"], ["dd"]] : List (List String)).length ≤ 1 →
          extractiveSummarize [] 3 1 [["aa", "bb", "cc"], ["dd"]]
            = [["aa", "bb", "cc"], ["dd"]])
      ∧ (1 < ([["aa", "bb", "cc"], ["dd"]] : List (List String)).length →
          (extractiveSummarize [] 3 1 [["aa", "bb", "cc"], ["dd"]]).length
            ≤ min 3 (max 1 (([["aa", "bb", "cc"], ["dd"]] : List (List String)).length / 4)))) :=
  ⟨by decide, extractive_summary_bound [] 3 1 [["aa", "bb", "cc"], ["dd"]] (by decide)⟩

/-! ## Sentiment gate and batch processing -/

/-- C6: the gate scores the best-available text and drops the item exactly
when the compound score is strictly below the threshold; an item at or above
the threshold is returned processed. -/
theorem sentiment_gate_iff {δ : Type} (sia : String → Rat) (threshold : Rat)
    (summarizer qgen : String → String) (it : NewsItem δ) :
    ((process_news_item sia threshold summarizer qgen it).2 = none
      ↔ sia (bestText it) < threshold)
    ∧ (threshold ≤ sia (bestText it) →
        ∃ r, (process_news_item sia threshold summarizer qgen it).2 = some r
          ∧ r.processed = true) := by
  constructor
  · simp only [process_news_item]
    by_cases h : sia (bestText it) < threshold
    · rw [if_pos h]
      simp [h]
    · rw [if_neg h]
      simp [h]
  · intro h
    simp only [process_news_item]
    rw [if_neg (not_lt.mpr h)]
    exact ⟨_, rfl, rfl⟩

/-- Witness for `sentiment_gate_iff`: the threshold `-0.5` scenario — a
compound score of `-0.8` is dropped, `-0.3` survives processed. -/
theorem sentiment_gate_iff_witness :
    (process_news_item (fun _ => (-8 : Rat) / 10) ((-1 : Rat) / 2) id id procItem).2 = none
    ∧ ∃ r, (process_news_item (fun _ => (-3 : Rat) / 10) ((-1 : Rat) / 2) id id procItem).2
        = some r ∧ r.processed = true :=
  ⟨(sentiment_gate_iff (fun _ => (-8 : Rat) / 10) ((-1 : Rat) / 2) id id procItem).1.mpr
      (by norm_num),
    (sentiment_gate_iff (fun _ => (-3 : Rat) / 10) ((-1 : Rat) / 2) id id procItem).2
      (by norm_num)⟩

/-- C10: when the gate drops an item, the only mutation that has happened is
the `sentiment` assignment of line 448 — every other field (in particular
`title`, `url`, `summary`, `question` and `processed`) is untouched. -/
theorem gate_drop_frame {δ : Type} (sia : String → Rat) (threshold : Rat)
    (summarizer qgen : String → String) (it : NewsItem δ)
    (h : (process_news_item sia threshold summarizer qgen it).2 = none) :
    (process_news_item sia threshold summarizer qgen it).1
      = { it with sentiment := some (sia (bestText it)) } := by
  by_cases hlt : sia (bestText it) < threshold
  · simp only [process_news_item]
    rw [if_pos hlt]
  · exfalso
    simp only [process_news_item] at h
    rw [if_neg hlt] at h
    simp at h

/-- Witness for `gate_drop_frame`. -/
theorem gate_drop_frame_witness :
    (process_news_item (fun _ => (-1 : Rat)) 0 id id procItem).2 = none
    ∧ (process_news_item (fun _ => (-1 : Rat)) 0 id id procItem).1
      = { procItem with sentiment := some (-1 : Rat) } :=
  ⟨by decide, gate_drop_frame (fun _ => (-1 : Rat)) 0 id id procItem (by decide)⟩

/-- The accumulator of the batch loop only ever grows by appending. -/
theorem process_loop_acc {δ : Type}
    (step : NewsItem δ → Except String (Option (NewsItem δ))) :
    ∀ (l acc : List (NewsItem δ)),
      process_loop step acc l = acc ++ process_loop step [] l
  | [], acc => by simp [process_loop]
  | x :: xs, acc => by
    rw [process_loop, process_loop]
    cases hstep : step x with
    | error e =>
      show process_loop step (acc ++ [x]) xs = acc ++ process_loop step ([] ++ [x]) xs
      rw [process_loop_acc step xs (acc ++ [x]), process_loop_acc step xs ([] ++ [x])]
      simp
    | ok o =>
      cases o with
      | none =>
        show process_loop step acc xs = acc ++ process_loop step [] xs
        exact process_loop_acc step xs acc
      | some y =>
        show process_loop step (acc ++ [y]) xs = acc ++ process_loop step ([] ++ [y]) xs
        rw [process_loop_acc step xs (acc ++ [y]), process_loop_acc step xs ([] ++ [y])]
        simp

/-- One iteration of the batch loop: an exception passes the item through
unenriched, a gate drop contributes nothing, a processed item is appended. -/
theorem process_news_items_cons {δ : Type}
    (step : NewsItem δ → Except String (Option (NewsItem δ)))
    (x : NewsItem δ) (xs : List (NewsItem δ)) :
    process_news_items step (x :: xs)
      = (match step x with
         | .error _ => [x]
         | .ok none => []
         | .ok (some y) => [y]) ++ process_news_items step xs := by
  rw [process_news_items, process_loop]
  cases hstep : step x with
  | error e =>
    show process_loop step ([] ++ [x]) xs = [x] ++ process_news_items step xs
    rw [process_loop_acc step xs ([] ++ [x])]
    rfl
  | ok o =>
    cases o with
    | none =>
      show process_loop step [] xs = [] ++ process_news_items step xs
      rfl
    | some y =>
      show process_loop step ([] ++ [y]) xs = [y] ++ process_news_items step xs
      rw [process_loop_acc step xs ([] ++ [y])]
      rfl

/-- C9: an exception on one item does not halt the batch — the failing item
is passed through unenriched and every other item is still processed. -/
theorem batch_continues_after_exception {δ : Type}
    (step : NewsItem δ → Except String (Option (NewsItem δ)))
    (pre post : List (NewsItem δ)) (x : NewsItem δ) (e : String)
    (h : step x = Except.error e) :
    process_news_items step (pre ++ x :: post)
      = process_news_items step pre ++ x :: process_news_items step post := by
  induction pre with
  | nil =>
    rw [List.nil_append, process_news_items_cons, h]
    rfl
  | cons p ps ih =>
    rw [List.cons_append, process_news_items_cons, ih, process_news_items_cons step p ps]
    simp

/-- Witness for `batch_continues_after_exception`. -/
theorem batch_continues_after_exception_witness :
    (fun it : NewsItem Unit =>
        if it.url = "pu" then (Except.error "boom" : Except String (Option (NewsItem Unit)))
        else Except.ok (some it)) procItem = Except.error "boom"
    ∧ process_news_items
        (fun it : NewsItem Unit =>
          if it.url = "pu" then Except.error "boom" else Except.ok (some it))
        ([procOk] ++ procItem :: [procOk])
      = process_news_items
          (fun it : NewsItem Unit =>
            if it.url = "pu" then Except.error "boom" else Except.ok (some it)) [procOk]
        ++ procItem :: process_news_items
          (fun it : NewsItem Unit =>
            if it.url = "pu" then Except.error "boom" else Except.ok (some it)) [procOk] :=
  ⟨rfl,
    batch_continues_after_exception
      (fun it : NewsItem Unit =>
        if it.url = "pu" then Except.error "boom" else Except.ok (some it))
      [procOk] [procOk] procItem "boom" rfl⟩

/-! ## Serialization round-trip -/

/-- C8: re-serializing a deserialized well-formed record reproduces every
field value; the timestamp is re-emitted as `fmt t` and re-parses to the
same instant `t` that the original string parses to. -/
theorem to_dict_from_dict_roundtrip {δ : Type}
    (parse : String → Option δ) (fmt : δ → String) (now : δ)
    (d : NewsDict) (pd : String) (t : δ)
    (c s iu q g : String) (pr : Bool)
    (hpd : d.published_date = some pd) (hpt : parse pd = some t)
    (hrt : parse (fmt t) = some t)
    (hc : d.content = some c) (hs : d.summary = some s)
    (hiu : d.image_url = some iu) (hpr : d.processed = some pr)
    (hq : d.question = some q) (hg : d.generated_image_path = some g) :
    to_dict fmt (from_dict parse now d) = { d with published_date := some (fmt t) }
    ∧ parse (fmt t) = parse pd := by
  constructor
  · obtain ⟨dt, du, dsrc, dpd, dc, ds, di, dp, dq, dg⟩ := d
    dsimp only at hpd hc hs hiu hpr hq hg
    subst hpd hc hs hiu hpr hq hg
    simp [to_dict, from_dict, hpt]
  · rw [hpt, hrt]

/-- Witness for `to_dict_from_dict_roundtrip`, with natural-number instants
and the concrete `parseFix`/`fmtFix` pair. -/
theorem to_dict_from_dict_roundtrip_witness :
    dictD.published_date = some "5"
    ∧ parseFix "5" = some 5
    ∧ parseFix (fmtFix 5) = some 5
    ∧ (to_dict fmtFix (from_dict parseFix 0 dictD)
        = { dictD with published_date := some (fmtFix 5) }
      ∧ parseFix (fmtFix 5) = parseFix "5") :=
  ⟨rfl, by decide, by decide,
    to_dict_from_dict_roundtrip parseFix fmtFix 0 dictD "5" 5
      "body" "sum" "img" "q?" "path" true rfl (by decide) (by decide) rfl rfl rfl rfl rfl rfl⟩

/-! ## Question generator -/

/-- Appending keeps a final question mark. -/
theorem endsQ_append (s t : String) (h : endsWithQuestionMark t = true) :
    endsWithQuestionMark (s ++ t) = true := by
  rw [endsWithQuestionMark] at h ⊢
  have ht : t.data.getLast? = some '?' := by simpa using h
  rw [String.data_append, List.getLast?_append, ht]
  rfl

/-- `random.choice` from a non-empty list all of whose elements satisfy a
property yields an element satisfying it, whatever the pick. -/
theorem pyChoice_all {α : Type} (p : α → Bool) (d : α) (l : List α) (k : Nat)
    (hl : l ≠ []) (hall : ∀ x ∈ l, p x = true) : p (pyChoice d l k) = true := by
  have hlt : k % l.length < l.length := Nat.mod_lt _ (List.length_pos.mpr hl)
  rw [pyChoice, List.getD_eq_getElem?_getD, List.getElem?_eq_getElem hlt,
    Option.getD_some]
  exact hall _ (List.getElem_mem hlt)

/-- All person templates end in a question mark. -/
theorem endsQ_personTemplates (e : String) :
    ∀ x ∈ personTemplates e, endsWithQuestionMark x = true := by
  intro x hx
  simp only [personTemplates, List.mem_cons, List.not_mem_nil, or_false] at hx
  rcases hx with rfl | rfl | rfl
  · exact endsQ_append _ _ (by decide)
  · exact endsQ_append _ _ (by decide)
  · exact endsQ_append _ _ (by decide)

/-- All organization templates end in a question mark. -/
theorem endsQ_orgTemplates (e : String) :
    ∀ x ∈ orgTemplates e, endsWithQuestionMark x = true := by
  intro x hx
  simp only [orgTemplates, List.mem_cons, List.not_mem_nil, or_false] at hx
  rcases hx with rfl | rfl | rfl
  · exact endsQ_append _ _ (by decide)
  · exact endsQ_append _ _ (by decide)
  · exact endsQ_append _ _ (by decide)

/-- All geopolitical templates end in a question mark. -/
theorem endsQ_gpeTemplates (e : String) :
    ∀ x ∈ gpeTemplates e, endsWithQuestionMark x = true := by
  intro x hx
  simp only [gpeTemplates, List.mem_cons, List.not_mem_nil, or_false] at hx
  rcases hx with rfl | rfl | rfl
  · exact endsQ_append _ _ (by decide)
  · exact endsQ_append _ _ (by decide)
  · exact endsQ_append _ _ (by decide)

/-- All event templates end in a question mark. -/
theorem endsQ_eventTemplates (e : String) :
    ∀ x ∈ eventTemplates e, endsWithQuestionMark x = true := by
  intro x hx
  simp only [eventTemplates, List.mem_cons, List.not_mem_nil, or_false] at hx
  rcases hx with rfl | rfl | rfl
  · exact endsQ_append _ _ (by decide)
  · exact endsQ_append _ _ (by decide)
  · exact endsQ_append _ _ (by decide)

/-- All remaining entity templates end in a question mark. -/
theorem endsQ_otherEntityTemplates (e : String) :
    ∀ x ∈ otherEntityTemplates e, endsWithQuestionMark x = true := by
  intro x hx
  simp only [otherEntityTemplates, List.mem_cons, List.not_mem_nil, or_false] at hx
  rcases hx with rfl | rfl | rfl
  · exact endsQ_append _ _ (by decide)
  · exact endsQ_append _ _ (by decide)
  · exact endsQ_append _ _ (by decide)

/-- All `what` templates end in a question mark. -/
theorem endsQ_whatTemplates (n : String) :
    ∀ x ∈ whatTemplates n, endsWithQuestionMark x = true := by
  intro x hx
  simp only [whatTemplates, List.mem_cons, List.not_mem_nil, or_false] at hx
  rcases hx with rfl | rfl | rfl
  · exact endsQ_append _ _ (by decide)
  · exact endsQ_append _ _ (by decide)
  · exact endsQ_append _ _ (by decide)

/-- All `why` templates end in a question mark. -/
theorem endsQ_whyTemplates (n : String) :
    ∀ x ∈ whyTemplates n, endsWithQuestionMark x = true := by
  intro x hx
  simp only [whyTemplates, List.mem_cons, List.not_mem_nil, or_false] at hx
  rcases hx with rfl | rfl | rfl
  · exact endsQ_append _ _ (by decide)
  · exact endsQ_append _ _ (by decide)
  · exact endsQ_append _ _ (by decide)

/-- All `how` templates end in a question mark. -/
theorem endsQ_howTemplates (n : String) :
    ∀ x ∈ howTemplates n, endsWithQuestionMark x = true := by
  intro x hx
  simp only [howTemplates, List.mem_cons, List.not_mem_nil, or_false] at hx
  rcases hx with rfl | rfl | rfl
  · exact endsQ_append _ _ (by decide)
  · exact endsQ_append _ _ (by decide)
  · exact endsQ_append _ _ (by decide)

/-- All remaining question-type templates end in a question mark. -/
theorem endsQ_otherTypeTemplates (n : String) :
    ∀ x ∈ otherTypeTemplates n, endsWithQuestionMark x = true := by
  intro x hx
  simp only [otherTypeTemplates, List.mem_cons, List.not_mem_nil, or_false] at hx
  rcases hx with rfl | rfl | rfl
  · exact endsQ_append _ _ (by decide)
  · exact endsQ_append _ _ (by decide)
  · exact endsQ_append _ _ (by decide)

/-- Whatever the picked entity, the template instantiated from its category
ends in a question mark. -/
theorem endsQ_entityTemplatesFor (ent : SpacyEntity) (k : Nat) :
    endsWithQuestionMark
      (pyChoice ""
        (if ent.label = "PERSON" then personTemplates ent.text
         else if ent.label = "ORG" then orgTemplates ent.text
         else if ent.label = "GPE" then gpeTemplates ent.text
         else if ent.label = "EVENT" then eventTemplates ent.text
         else otherEntityTemplates ent.text) k) = true := by
  apply pyChoice_all
  · split
    · simp [personTemplates]
    · split
      · simp [orgTemplates]
      · split
        · simp [gpeTemplates]
        · split
          · simp [eventTemplates]
          · simp [otherEntityTemplates]
  · split
    · exact endsQ_personTemplates _
    · split
      · exact endsQ_orgTemplates _
      · split
        · exact endsQ_gpeTemplates _
        · split
          · exact endsQ_eventTemplates _
          · exact endsQ_otherEntityTemplates _

/-- Whatever the picked noun and question type, the instantiated noun
template ends in a question mark. -/
theorem endsQ_typeTemplatesFor (qt n : String) (k : Nat) :
    endsWithQuestionMark
      (pyChoice ""
        (if qt = "what" then whatTemplates n
         else if qt = "why" then whyTemplates n
         else if qt = "how" then howTemplates n
         else otherTypeTemplates n) k) = true := by
  apply pyChoice_all
  · split
    · simp [whatTemplates]
    · split
      · simp [whyTemplates]
      · split
        · simp [howTemplates]
        · simp [otherTypeTemplates]
  · split
    · exact endsQ_whatTemplates _
    · split
      · exact endsQ_whyTemplates _
      · split
        · exact endsQ_howTemplates _
        · exact endsQ_otherTypeTemplates _

/-- An entity-driven question (from a non-empty entity list) ends in a
question mark. -/
theorem endsQ_generate_entity_question (ents : List SpacyEntity) (k1 k2 : Nat)
    (h : ents ≠ []) :
    endsWithQuestionMark (generate_entity_question ents k1 k2) = true := by
  simp only [generate_entity_question]
  rw [if_neg (by simpa using h)]
  exact endsQ_entityTemplatesFor _ k2

/-- A noun-template or generic-fallback question ends in a question mark. -/
theorem endsQ_generate_template_question (nouns qtypes : List String)
    (k1 k2 k3 k4 : Nat) :
    endsWithQuestionMark (generate_template_question nouns qtypes k1 k2 k3 k4)
      = true := by
  simp only [generate_template_question]
  by_cases hn : nouns.isEmpty
  · rw [if_pos hn, generate_generic_question]
    exact pyChoice_all _ _ _ _ (by decide) (by decide)
  · rw [if_neg hn]
    exact endsQ_typeTemplatesFor _ _ k3

/-- C7: for every non-empty text (and a non-empty configured question-type
list, as in the default configuration), the synthesized question ends with a
question mark, in the entity tier, the noun tier and the generic fallback
alike. -/
theorem question_ends_with_qmark (ents : List SpacyEntity) (nouns qtypes : List String)
    (kEnt kTplE kNoun kType kTpl kGen : Nat) (text : String)
    (htext : text ≠ "") (hq : qtypes ≠ []) :
    endsWithQuestionMark
      (qg_process ents nouns qtypes kEnt kTplE kNoun kType kTpl kGen text) = true := by
  simp only [qg_process]
  rw [if_neg htext]
  by_cases hents : ents = []
  · subst hents
    rw [if_pos (show generate_entity_question [] kEnt kTplE = "" from rfl)]
    exact endsQ_generate_template_question nouns qtypes kNoun kType kTpl kGen
  · by_cases hzero : generate_entity_question ents kEnt kTplE = ""
    · rw [if_pos hzero]
      exact endsQ_generate_template_question nouns qtypes kNoun kType kTpl kGen
    · rw [if_neg hzero]
      exact endsQ_generate_entity_question ents kEnt kTplE hents

/-- Witness for `question_ends_with_qmark`: the full-fallback case with no
entities and no nouns. -/
theorem question_ends_with_qmark_witness :
    ("hi" : String) ≠ ""
    ∧ (["what", "why", "how"] : List String) ≠ []
    ∧ endsWithQuestionMark
        (qg_process [] [] ["what", "why", "how"] 0 0 0 0 0 0 "hi") = true :=
  ⟨by decide, by decide,
    question_ends_with_qmark [] [] ["what", "why", "how"] 0 0 0 0 0 0 "hi"
      (by decide) (by decide)⟩

end NewsBot
